import Mathlib

/-!
Verification development for the plato-opds sync tool.

The definitions below are a shallow embedding of src/main.rs and
src/opds.rs: the feed data model, link and MIME-type classification,
per-entry resolution (link selection, identifier validation, destination
path computation), the pagination crawl, and the sync executor.  Stateful
and effectful code is embedded as explicit state passing over an
environment of oracles (network fetch, download, filesystem checks, the
termination flag), producing an explicit event trace.
-/

namespace PlatoOpds

/-- Link relation classification, mirroring enum LinkType in main.rs. -/
inductive LinkType where
  | Acquisition
  | Cover
  | Thumbnail
  | Sample
  | OpenAccess
  | Borrow
  | Buy
  | Subscribe
  | Next
  | Other (s : String)
deriving DecidableEq

/-- FromStr for LinkType (main.rs lines 116-134).  The match on string
literals is written as the equivalent chain of equality tests.  Every
branch returns ok, unknown strings fall through to Other. -/
def LinkType.from_str (s : String) : Except String LinkType :=
  if s = ("http://opds-spec.org/acquisition") then .ok .Acquisition
  else if s = ("http://opds-spec.org/image") then .ok .Cover
  else if s = ("http://opds-spec.org/image/thumbnail") then .ok .Thumbnail
  else if s = ("http://opds-spec.org/acquisition/sample") then .ok .Sample
  else if s = ("http://opds-spec.org/acquisition/preview") then .ok .Sample
  else if s = ("http://opds-spec.org/acquisition/open-access") then .ok .OpenAccess
  else if s = ("http://opds-spec.org/acquisition/borrow") then .ok .Borrow
  else if s = ("http://opds-spec.org/acquisition/buy") then .ok .Buy
  else if s = ("http://opds-spec.org/acquisition/subscribe") then .ok .Subscribe
  else if s = ("next") then .ok .Next
  else .ok (.Other s)

/-- The raw relation strings recognized by LinkType.from_str. -/
def linkRelTable : List String :=
  [("http://opds-spec.org/acquisition"),
   ("http://opds-spec.org/image"),
   ("http://opds-spec.org/image/thumbnail"),
   ("http://opds-spec.org/acquisition/sample"),
   ("http://opds-spec.org/acquisition/preview"),
   ("http://opds-spec.org/acquisition/open-access"),
   ("http://opds-spec.org/acquisition/borrow"),
   ("http://opds-spec.org/acquisition/buy"),
   ("http://opds-spec.org/acquisition/subscribe"),
   ("next")]

/-- MIME type classification, mirroring enum FileType in main.rs. -/
inductive FileType where
  | Epub
  | Cbz
  | Pdf
  | Other (s : String)
deriving DecidableEq

/-- FromStr for FileType (main.rs lines 88-99): total, unknown MIME type
strings map to Other carrying the original string. -/
def FileType.from_str (s : String) : Except String FileType :=
  if s = ("application/epub+zip") then .ok .Epub
  else if s = ("application/x-cbz") then .ok .Cbz
  else if s = ("application/pdf") then .ok .Pdf
  else .ok (.Other s)

/-- The MIME type strings recognized by FileType.from_str. -/
def fileTypeTable : List String :=
  [("application/epub+zip"), ("application/x-cbz"), ("application/pdf")]

/-- File extensions, mirroring enum FileExtension in main.rs. -/
inductive FileExtension where
  | Epub
  | Cbz
  | Pdf
  | Other (s : String)
deriving DecidableEq

/-- Display impl for FileExtension (main.rs lines 174-184). -/
def FileExtension.toString : FileExtension → String
  | .Epub => ("epub")
  | .Cbz => ("cbz")
  | .Pdf => ("pdf")
  | .Other s => s

/-- From impl converting FileType to FileExtension (main.rs lines 186-195). -/
def FileExtension.ofFileType : FileType → FileExtension
  | .Epub => .Epub
  | .Cbz => .Cbz
  | .Pdf => .Pdf
  | .Other s => .Other s

/-- A link in an OPDS feed (opds.rs struct Link). -/
structure Link where
  rel : Option LinkType
  href : Option String
  file_type : Option String
deriving DecidableEq

/-- An author listed in a feed entry (opds.rs struct Author). -/
structure Author where
  name : String
deriving DecidableEq

/-- A publisher listed in a feed entry (opds.rs struct Publisher). -/
structure Publisher where
  name : String
deriving DecidableEq

/-- Publication date, of which only the year is consumed (main.rs line 455). -/
structure PubDate where
  year : Int
deriving DecidableEq

/-- A feed entry, usually a book (opds.rs struct Entry, plus the published
field consumed by main.rs). -/
structure Entry where
  title : String
  id : String
  authors : Option (List Author)
  publishers : Option (List Publisher)
  links : Option (List Link)
  published : Option PubDate
deriving DecidableEq

/-- An OPDS feed: entries plus feed-level links (opds.rs struct Feed). -/
structure Feed where
  entries : List Entry
  links : List Link
deriving DecidableEq

/-- Per-server connection settings (opds.rs struct Instance). -/
structure Instance where
  url : String
  username : Option String
  password : Option String
deriving DecidableEq

/-- Application settings (main.rs struct Settings).  The two HashMaps are
embedded as association lists; only key lookup and key iteration are used. -/
structure Settings where
  servers : List (String × Instance)
  preferred_file_types : List String
  use_server_name_directories : Bool
  organize_by_file_type : Bool
  organization : List (String × String)

/-- A resolved entry ready for download (main.rs struct EntryResult). -/
structure EntryResult where
  link : Link
  file_extension : FileExtension
  entry : Entry
  save_path : String
deriving DecidableEq

/-- Character-level model of str starts_with. -/
def strStartsWith (s p : String) : Bool :=
  List.isPrefixOf p.toList s.toList

/-- Model of stripping the literal marker "urn:uuid:" from an id, as done
by str strip at main.rs line 338: some remainder when the marker leads the
string, none otherwise. -/
def stripUrn (s : String) : Option String :=
  if strStartsWith s ("urn:uuid:") then some (String.mk (s.toList.drop 9))
  else none

/-- Key lookup in an association list, modelling HashMap get. -/
def lookupTable (t : List (String × String)) (k : String) : Option String :=
  (t.find? (fun p => decide (p.1 = k))).map (fun p => p.2)

/-- The acquisition-link test used during selection (main.rs lines 330-333):
the relation is classified Acquisition and the MIME type equals the
candidate preferred type. -/
def acqMatch (t : String) (l : Link) : Bool :=
  decide (l.rel = some LinkType.Acquisition) && decide (l.file_type = some t)

/-- Link selection (main.rs lines 327-335): iterate the preferred MIME type
list in settings order and pick, for the first type with any matching
acquisition link on the entry, the first such link in feed order. -/
def selectLink (preferred : List String) (entry : Entry) : Option Link :=
  preferred.findSome? (fun t => (entry.links.getD []).find? (acqMatch t))

/-- Destination directory computation (main.rs lines 361-386) given the
already chosen base directory: when organize_by_file_type is set, a hit in
the organization table appends that directory to the base, creating it when
absent; a create failure skips the entry (none).  A miss, or the flag being
unset, keeps the base. -/
def computeDir (settings : Settings) (base ext : String)
    (pathExists mkdirOk : String → Bool) : Option String :=
  if settings.organize_by_file_type then
    match lookupTable settings.organization ext with
    | some directory =>
      let organized := base ++ ("/") ++ directory
      if pathExists organized then some organized
      else if mkdirOk organized then some organized
      else none
    | none => some base
  else some base

/-- Per-entry resolution: the filter_map closure of main.rs lines 324-400.
Returns the notifications emitted for the entry together with the optional
EntryResult.  The quote punctuation of the Rust format strings is elided
from the notification text.  Note the source order: the id marker check
(line 338) runs before the missing-link notification (lines 340-346). -/
def resolveEntry (settings : Settings) (savePath instancePath : String)
    (pathExists mkdirOk : String → Bool) (entry : Entry) :
    List String × Option EntryResult :=
  let link := selectLink settings.preferred_file_types entry
  match stripUrn entry.id with
  | none => ([], none)
  | some uuid =>
    match link with
    | none =>
      ([("Error downloading ") ++ entry.title ++ (": no acquisition link found.")],
       none)
    | some l =>
      match l.file_type with
      | none => ([], none)
      | some fts =>
        match FileType.from_str fts with
        | .error _ => ([], none)
        | .ok ft =>
          let file_extension := FileExtension.ofFileType ft
          let file_name := uuid ++ (".") ++ file_extension.toString
          let base :=
            if settings.use_server_name_directories then savePath else instancePath
          match computeDir settings base file_extension.toString pathExists mkdirOk with
          | none => ([], none)
          | some d =>
            let doc_path := d ++ ("/") ++ file_name
            if pathExists doc_path then ([], none)
            else ([], some ⟨l, file_extension, entry, doc_path⟩)

/-- A parsed URL reduced to the components the program consumes: scheme,
host, and the rest (path onward). -/
structure ParsedUrl where
  scheme : String
  host : String
  rest : String
deriving DecidableEq

/-- Scan for the first scheme separator "://", returning the characters
before it and after it. -/
def splitSchemeAux (acc : List Char) : List Char → Option (List Char × List Char)
  | [] => none
  | ':' :: '/' :: '/' :: r => some (acc.reverse, r)
  | c :: r => splitSchemeAux (c :: acc) r

/-- Model of the url crate parser restricted to scheme://host/rest URLs:
the scheme is the text before the first "://" and must be nonempty, the
host runs to the first slash after it.  Userinfo, ports, and
percent-encoding are elided. -/
def parseUrl (s : String) : Option ParsedUrl :=
  match splitSchemeAux [] s.toList with
  | none => none
  | some (schemeCs, restCs) =>
    if schemeCs.isEmpty then none
    else
      some ⟨String.mk schemeCs,
            String.mk (restCs.takeWhile (fun c => c != '/')),
            String.mk (restCs.dropWhile (fun c => c != '/'))⟩

/-- Resolution of the next pagination href against the instance url
(main.rs lines 301-311): a href starting with a slash becomes an absolute
path on the scheme and host of the instance url; anything else must parse
as a fully qualified URL on its own. -/
def resolveNextUrl (instanceUrl href : String) : Except String String :=
  if strStartsWith href ("/") then
    match parseUrl instanceUrl with
    | none => .error ("cannot parse instance url")
    | some u =>
      if u.host = ("") then .error ("No host in instance url")
      else .ok (u.scheme ++ ("://") ++ u.host ++ href)
  else
    match parseUrl href with
    | none => .error ("cannot parse paginated url")
    | some _ => .ok href

/-- Events observable in a run: the two kinds of network request, host
notifications, file creation and removal, and library registration. -/
inductive Event where
  | fetchReq (url : String) (username : String) (password : Option String)
  | downloadReq (url : String) (username : String) (password : Option String)
  | notify (msg : String)
  | createFile (path : String)
  | removeFile (path : String)
  | addDocument (title : String)
deriving DecidableEq

/-- Whether an event is a network request. -/
def Event.isNetwork : Event → Bool
  | .fetchReq _ _ _ => true
  | .downloadReq _ _ _ => true
  | _ => false

/-- The environment of oracles the executor runs against: catalog fetch
(request plus feed parse), resource download (request plus body copy),
filesystem checks, and the termination flag read at the i-th poll. -/
structure Env where
  fetch : String → Except String Feed
  download : String → Except String Unit
  pathExists : String → Bool
  mkdirOk : String → Bool
  createOk : String → Bool
  sigterm : Nat → Bool

/-- The pagination crawl (main.rs lines 295-319), fuelled: while the feed
links contain a link classified Next, resolve its href, fetch it, append
the new entries and replace the links.  Returns the fetch events issued
and the accumulated feed. -/
def crawlLoop (env : Env) (instanceUrl username : String)
    (password : Option String) : Nat → Feed → List Event × Except String Feed
  | 0, _ => ([], .error ("pagination fuel exhausted"))
  | fuel + 1, feed =>
    match feed.links.find? (fun l => decide (l.rel = some LinkType.Next)) with
    | none => ([], .ok feed)
    | some nl =>
      match nl.href with
      | none => ([], .error ("Paginated link is empty"))
      | some href =>
        match resolveNextUrl instanceUrl href with
        | .error e => ([], .error e)
        | .ok u =>
          match env.fetch u with
          | .error e => ([Event.fetchReq u username password], .error e)
          | .ok nf =>
            let next := crawlLoop env instanceUrl username password fuel
              ⟨feed.entries ++ nf.entries, nf.links⟩
            (Event.fetchReq u username password :: next.1, next.2)

/-- Catalog fetch for one server (main.rs lines 285-319): initial
authenticated GET of the instance url, then the pagination crawl.  The
username defaults to admin when unset. -/
def fetchCatalog (env : Env) (fuel : Nat) (inst : Instance) :
    List Event × Except String Feed :=
  let username := inst.username.getD ("admin")
  match env.fetch inst.url with
  | .error e => ([Event.fetchReq inst.url username inst.password], .error e)
  | .ok feed =>
    let next := crawlLoop env inst.url username inst.password fuel feed
    (Event.fetchReq inst.url username inst.password :: next.1, next.2)

/-- Resolution over a list of entries in feed order, concatenating the
emitted notifications and collecting the successful results (the
filter_map collect of main.rs lines 321-401). -/
def resolveEntries (settings : Settings) (savePath instancePath : String)
    (pathExists mkdirOk : String → Bool) : List Entry → List String × List EntryResult
  | [] => ([], [])
  | e :: rest =>
    let r := resolveEntry settings savePath instancePath pathExists mkdirOk e
    let rs := resolveEntries settings savePath instancePath pathExists mkdirOk rest
    (r.1 ++ rs.1, r.2.toList ++ rs.2)

/-- Batch notifications before downloading (main.rs fn
print_sync_notification): nothing for an empty batch, otherwise an
aggregate count followed by one message per distinct file extension.  The
HashMap iteration order of the source is arbitrary; this model fixes one. -/
def syncNotifications (name : String) (results : List EntryResult) : List String :=
  if results.isEmpty then []
  else
    let exts := results.map (fun r => r.file_extension)
    (("Downloading ") ++ toString results.length ++ (" new documents found on ") ++ name) ::
      exts.dedup.map (fun e =>
        ("Downloading ") ++ toString (exts.count e) ++ (" new ") ++ e.toString ++ ("s"))

/-- Outcome of a (partial) run: the event trace, each event tagged with the
number of termination-flag polls performed before it was emitted, the
total number of polls performed, and the overall result. -/
structure RunOut where
  trace : List (Nat × Event)
  polls : Nat
  result : Except String Unit

/-- The per-resolved-entry download loop (main.rs lines 406-490).  Each
iteration polls the termination flag, re-checks destination existence,
creates the destination file, rebuilds the resource URL from the instance
url with the path replaced by the selected link href, and downloads.  A
missing href or a failed file creation propagates as an error; a download
failure notifies, removes the partial file, and continues. -/
def downloadLoop (env : Env) (instanceUrl libraryPath username : String)
    (password : Option String) : List EntryResult → Nat → RunOut
  | [], p => ⟨[], p, .ok ()⟩
  | r :: rest, p =>
    if env.sigterm p then ⟨[], p + 1, .ok ()⟩
    else
      let q := p + 1
      if env.pathExists r.save_path then
        downloadLoop env instanceUrl libraryPath username password rest q
      else if env.createOk r.save_path then
        match parseUrl instanceUrl with
        | none => ⟨[(q, .createFile r.save_path)], q, .error ("cannot parse instance url")⟩
        | some u =>
          match r.link.href with
          | none =>
            ⟨[(q, .createFile r.save_path)], q,
             .error (("no href found for link in ") ++ r.entry.title)⟩
          | some href =>
            let dl := u.scheme ++ ("://") ++ u.host ++
              (if strStartsWith href ("/") then href else ("/") ++ href)
            match env.download dl with
            | .error e =>
              let out := downloadLoop env instanceUrl libraryPath username password rest q
              ⟨(q, .createFile r.save_path) :: (q, .downloadReq dl username password) ::
                 (q, .notify (("Error downloading ") ++ r.entry.title ++ (": ") ++ e)) ::
                 (q, .removeFile r.save_path) :: out.trace, out.polls, out.result⟩
            | .ok _ =>
              let reg : List (Nat × Event) :=
                if strStartsWith r.save_path libraryPath then
                  [(q, .addDocument r.entry.title)]
                else []
              let out := downloadLoop env instanceUrl libraryPath username password rest q
              ⟨(q, .createFile r.save_path) :: (q, .downloadReq dl username password) ::
                 reg ++ out.trace, out.polls, out.result⟩
      else ⟨[], p + 1, .error ("cannot create file")⟩

/-- Processing of one server once its loop iteration has begun (main.rs
lines 281-494): catalog fetch with pagination, entry resolution, batch
notifications, the download loop, and the closing notification.  The
parameter q is the number of polls performed so far; events of this body
that precede the download loop are tagged with it. -/
def processServer (env : Env) (fuel : Nat) (settings : Settings)
    (savePath libraryPath name : String) (inst : Instance) (q : Nat) : RunOut :=
  let instancePath := savePath ++ ("/") ++ name
  let username := inst.username.getD ("admin")
  let fetched := fetchCatalog env fuel inst
  let fevs := fetched.1.map (fun e => (q, e))
  match fetched.2 with
  | .error e => ⟨fevs, q, .error e⟩
  | .ok feed =>
    let resolved := resolveEntries settings savePath instancePath
      env.pathExists env.mkdirOk feed.entries
    let nevs := resolved.1.map (fun m => (q, Event.notify m))
    let sevs := (syncNotifications name resolved.2).map (fun m => (q, Event.notify m))
    let out := downloadLoop env inst.url libraryPath username inst.password resolved.2 q
    match out.result with
    | .error e => ⟨fevs ++ nevs ++ sevs ++ out.trace, out.polls, .error e⟩
    | .ok _ =>
      let fin : List (Nat × Event) :=
        if resolved.2.isEmpty then []
        else [(out.polls, Event.notify (("Finished syncing with ") ++ name))]
      ⟨fevs ++ nevs ++ sevs ++ out.trace ++ fin, out.polls, .ok ()⟩

/-- The per-server loop (main.rs lines 276-495): poll the termination
flag, then process the server; an error in the body ends the run with that
error, otherwise continue with the remaining servers. -/
def runServers (env : Env) (fuel : Nat) (settings : Settings)
    (savePath libraryPath : String) : List (String × Instance) → Nat → RunOut
  | [], p => ⟨[], p, .ok ()⟩
  | (name, inst) :: rest, p =>
    if env.sigterm p then ⟨[], p + 1, .ok ()⟩
    else
      let out := processServer env fuel settings savePath libraryPath name inst (p + 1)
      match out.result with
      | .error e => ⟨out.trace, out.polls, .error e⟩
      | .ok _ =>
        let out2 := runServers env fuel settings savePath libraryPath rest out.polls
        ⟨out.trace ++ out2.trace, out2.polls, out2.result⟩

deriving instance DecidableEq for Except

/-- Example settings: two preferred MIME types in order, both layout flags
set, a two-row organization table, one configured server. -/
def settingsW : Settings :=
  { servers := [(("lib1"), ⟨("http://h.example/opds"), none, none⟩)],
    preferred_file_types := [("application/pdf"), ("application/epub+zip")],
    use_server_name_directories := true,
    organize_by_file_type := true,
    organization := [(("epub"), ("Books")), (("pdf"), ("Documents"))] }

/-- An epub acquisition link. -/
def epubLink : Link := ⟨some .Acquisition, some ("/get/1.epub"), some ("application/epub+zip")⟩

/-- A pdf acquisition link. -/
def pdfLink : Link := ⟨some .Acquisition, some ("/get/1.pdf"), some ("application/pdf")⟩

/-- An entry carrying an epub link first and a pdf link second. -/
def entryBoth : Entry :=
  ⟨("Dune"), ("urn:uuid:abc"), none, none, some [epubLink, pdfLink], none⟩

/-- An entry carrying only an epub link. -/
def entryEpub : Entry :=
  ⟨("Dune"), ("urn:uuid:abc"), none, none, some [epubLink], none⟩

/-- An entry with no links and an id without the urn marker. -/
def entryNoLink : Entry := ⟨("Bare"), ("book-1"), none, none, some [], none⟩

/-- An entry with the urn marker but only a cover link. -/
def entryNoMatch : Entry :=
  ⟨("NoMatch"), ("urn:uuid:xyz"), none, none,
   some [⟨some .Cover, some ("/c.png"), some ("image/png")⟩], none⟩

/-- First catalog page: one entry and a pagination link to a relative path. -/
def page1 : Feed := ⟨[entryEpub], [⟨some .Next, some ("/catalog?page=2"), none⟩]⟩

/-- Second catalog page: one entry and no pagination link. -/
def page2 : Feed := ⟨[entryNoMatch], [⟨some (.Other ("self")), some ("/catalog?page=2"), none⟩]⟩

/-- An environment serving the two-page catalog above, with downloads
succeeding, an empty filesystem, and the termination flag never set. -/
def envPag : Env :=
  { fetch := fun u =>
      if u = ("http://h.example/opds") then .ok page1
      else if u = ("http://h.example/catalog?page=2") then .ok page2
      else .error ("404"),
    download := fun _ => .ok (),
    pathExists := fun _ => false,
    mkdirOk := fun _ => true,
    createOk := fun _ => true,
    sigterm := fun _ => false }

/-- A resolved entry ready for download, with an href on its link. -/
def resultW : EntryResult := ⟨epubLink, .Epub, entryEpub, ("save/Books/abc.epub")⟩

/-- A resolved entry whose selected link carries no href. -/
def resultNoHref : EntryResult :=
  ⟨⟨some .Acquisition, none, some ("application/epub+zip")⟩, .Epub, entryEpub,
   ("save/Books/abc.epub")⟩

/-- An environment whose downloads all fail. -/
def envDlErr : Env :=
  { envPag with download := fun _ => .error ("connection reset") }

/-- An environment whose catalog fetches all fail. -/
def envFetchErr : Env :=
  { envPag with fetch := fun _ => .error ("connection refused") }

/-- An environment whose termination flag is already set. -/
def envCancel : Env :=
  { envPag with sigterm := fun _ => true }

deriving instance DecidableEq for RunOut

/-- C9: both classification functions are total — every input string maps
to an ok value — and every string outside the fixed tables maps to the
Other variant carrying the original string unchanged. -/
theorem c9_classification_total (s : String) :
    (∃ t, FileType.from_str s = .ok t) ∧
    (∃ t, LinkType.from_str s = .ok t) ∧
    (s ∉ fileTypeTable → FileType.from_str s = .ok (FileType.Other s)) ∧
    (s ∉ linkRelTable → LinkType.from_str s = .ok (LinkType.Other s)) := by
  refine ⟨?_, ?_, ?_, ?_⟩
  · unfold FileType.from_str
    repeat' split
    all_goals exact ⟨_, rfl⟩
  · unfold LinkType.from_str
    repeat' split
    all_goals exact ⟨_, rfl⟩
  · intro h
    simp only [fileTypeTable, List.mem_cons, List.not_mem_nil, or_false, not_or] at h
    unfold FileType.from_str
    rw [if_neg h.1, if_neg h.2.1, if_neg h.2.2]
  · intro h
    simp only [linkRelTable, List.mem_cons, List.not_mem_nil, or_false, not_or] at h
    obtain ⟨h1, h2, h3, h4, h5, h6, h7, h8, h9, h10⟩ := h
    unfold LinkType.from_str
    rw [if_neg h1, if_neg h2, if_neg h3, if_neg h4, if_neg h5, if_neg h6,
        if_neg h7, if_neg h8, if_neg h9, if_neg h10]

/-- Witness for c9 at a concrete string outside both tables. -/
theorem c9_witness :
    FileType.from_str ("x-unknown") = .ok (FileType.Other ("x-unknown")) ∧
    LinkType.from_str ("x-unknown") = .ok (LinkType.Other ("x-unknown")) :=
  ⟨(c9_classification_total ("x-unknown")).2.2.1 (by decide),
   (c9_classification_total ("x-unknown")).2.2.2 (by decide)⟩

/-- C8: an entry whose id does not start with the urn marker resolves to
nothing and emits no notification, whatever the settings, paths, and
filesystem state. -/
theorem c8_no_marker_silent (settings : Settings) (savePath instancePath : String)
    (pathExists mkdirOk : String → Bool) (entry : Entry)
    (h : strStartsWith entry.id ("urn:uuid:") = false) :
    resolveEntry settings savePath instancePath pathExists mkdirOk entry = ([], none) := by
  simp [resolveEntry, stripUrn, h]

/-- Witness for c8 at a concrete entry with id lacking the marker. -/
theorem c8_witness :
    resolveEntry settingsW ("save") ("save/lib1") (fun _ => false) (fun _ => true)
      entryNoLink = ([], none) :=
  c8_no_marker_silent settingsW ("save") ("save/lib1") (fun _ => false) (fun _ => true)
    entryNoLink (by decide)

/-- C4 counterexample: this entry has no acquisition link matching any
preferred type, yet resolution emits no notification at all, because its
id lacks the urn marker and the marker check runs before the missing-link
notification (main.rs line 338 versus lines 340-346). -/
theorem c4_counterexample :
    selectLink settingsW.preferred_file_types entryNoLink = none ∧
    resolveEntry settingsW ("save") ("save/lib1") (fun _ => false) (fun _ => true)
      entryNoLink = ([], none) := by
  constructor <;> decide

/-- C4 amended: an entry with no matching acquisition link always resolves
to nothing; the missing-link notification naming the entry title is
emitted exactly when the entry id carries the urn marker, and entries
without the marker are skipped silently. -/
theorem c4_no_link_notification (settings : Settings) (savePath instancePath : String)
    (pathExists mkdirOk : String → Bool) (entry : Entry)
    (hsel : selectLink settings.preferred_file_types entry = none) :
    (resolveEntry settings savePath instancePath pathExists mkdirOk entry).2 = none ∧
    ((stripUrn entry.id).isSome = true →
      (resolveEntry settings savePath instancePath pathExists mkdirOk entry).1 =
        [("Error downloading ") ++ entry.title ++ (": no acquisition link found.")]) ∧
    (stripUrn entry.id = none →
      (resolveEntry settings savePath instancePath pathExists mkdirOk entry).1 = []) := by
  cases hid : stripUrn entry.id <;> simp [resolveEntry, hid, hsel]

/-- Witness for the amended c4: an entry with the urn marker and only a
cover link resolves to nothing and produces the notification. -/
theorem c4_witness :
    (resolveEntry settingsW ("save") ("save/lib1") (fun _ => false) (fun _ => true)
      entryNoMatch).2 = none ∧
    (resolveEntry settingsW ("save") ("save/lib1") (fun _ => false) (fun _ => true)
      entryNoMatch).1 =
      [("Error downloading ") ++ entryNoMatch.title ++ (": no acquisition link found.")] := by
  have h := c4_no_link_notification settingsW ("save") ("save/lib1")
    (fun _ => false) (fun _ => true) entryNoMatch (by decide)
  exact ⟨h.1, h.2.1 (by decide)⟩

/-- C2: link selection walks the preferred type list in settings order: if
no type before t has any matching acquisition link on the entry and t has
one, the selected link is the first feed link matching t, whatever the
order of links in the feed and whatever types follow t. -/
theorem c2_settings_order_wins (entry : Entry) (ps1 ps2 : List String) (t : String) (l : Link)
    (hnone : ∀ t1 ∈ ps1, (entry.links.getD []).find? (acqMatch t1) = none)
    (hfound : (entry.links.getD []).find? (acqMatch t) = some l) :
    selectLink (ps1 ++ t :: ps2) entry = some l := by
  induction ps1 with
  | nil => simp [selectLink, List.findSome?_cons, hfound]
  | cons a as ih =>
    have ha := hnone a (by simp)
    have ih2 := ih (fun t1 ht1 => hnone t1 (by simp [ht1]))
    simpa [selectLink, List.findSome?_cons, ha] using ih2

/-- Witness for c2: with preferred list pdf before epub and a feed that
lists the epub link first, the pdf link is selected. -/
theorem c2_witness :
    selectLink settingsW.preferred_file_types entryBoth = some pdfLink := by
  have h := c2_settings_order_wins entryBoth [] [("application/epub+zip")]
    ("application/pdf") pdfLink (by intro t1 ht1; simp at ht1) (by decide)
  simpa [settingsW] using h

/-- C1: destination path of a resolved entry (main.rs lines 361-388).
With group-by-file-type set and the extension present in the organization
table, the path is base/organizationDir/strippedId.extension where the
base is the shared save root when use_server_name_directories is set and
the per-server subdirectory savePath/serverName when it is not; when the
extension is absent from the table the base is used unmodified. -/
theorem c1_destination_path (settings : Settings) (savePath name : String)
    (pathExists mkdirOk : String → Bool) (entry : Entry) (uuid : String)
    (l : Link) (mts : String) (ft : FileType) (dir : String)
    (hid : stripUrn entry.id = some uuid)
    (hsel : selectLink settings.preferred_file_types entry = some l)
    (hmt : l.file_type = some mts)
    (hft : FileType.from_str mts = .ok ft)
    (horg : settings.organize_by_file_type = true) :
    (settings.use_server_name_directories = true →
      lookupTable settings.organization (FileExtension.ofFileType ft).toString = some dir →
      (pathExists (savePath ++ ("/") ++ dir) = true ∨
        mkdirOk (savePath ++ ("/") ++ dir) = true) →
      pathExists (savePath ++ ("/") ++ dir ++ ("/") ++
        (uuid ++ (".") ++ (FileExtension.ofFileType ft).toString)) = false →
      resolveEntry settings savePath (savePath ++ ("/") ++ name) pathExists mkdirOk entry =
        ([], some ⟨l, FileExtension.ofFileType ft, entry,
          savePath ++ ("/") ++ dir ++ ("/") ++
            (uuid ++ (".") ++ (FileExtension.ofFileType ft).toString)⟩)) ∧
    (settings.use_server_name_directories = false →
      lookupTable settings.organization (FileExtension.ofFileType ft).toString = some dir →
      (pathExists (savePath ++ ("/") ++ name ++ ("/") ++ dir) = true ∨
        mkdirOk (savePath ++ ("/") ++ name ++ ("/") ++ dir) = true) →
      pathExists (savePath ++ ("/") ++ name ++ ("/") ++ dir ++ ("/") ++
        (uuid ++ (".") ++ (FileExtension.ofFileType ft).toString)) = false →
      resolveEntry settings savePath (savePath ++ ("/") ++ name) pathExists mkdirOk entry =
        ([], some ⟨l, FileExtension.ofFileType ft, entry,
          savePath ++ ("/") ++ name ++ ("/") ++ dir ++ ("/") ++
            (uuid ++ (".") ++ (FileExtension.ofFileType ft).toString)⟩)) ∧
    (lookupTable settings.organization (FileExtension.ofFileType ft).toString = none →
      pathExists ((if settings.use_server_name_directories then savePath
          else savePath ++ ("/") ++ name) ++ ("/") ++
        (uuid ++ (".") ++ (FileExtension.ofFileType ft).toString)) = false →
      resolveEntry settings savePath (savePath ++ ("/") ++ name) pathExists mkdirOk entry =
        ([], some ⟨l, FileExtension.ofFileType ft, entry,
          (if settings.use_server_name_directories then savePath
            else savePath ++ ("/") ++ name) ++ ("/") ++
            (uuid ++ (".") ++ (FileExtension.ofFileType ft).toString)⟩)) := by
  refine ⟨?_, ?_, ?_⟩
  · intro hflag hlook hdir hfin
    by_cases hpe : pathExists (savePath ++ ("/") ++ dir) = true
    · simp [resolveEntry, hid, hsel, hmt, hft, horg, hflag, computeDir, hlook, hpe, hfin]
    · have hmk : mkdirOk (savePath ++ ("/") ++ dir) = true := hdir.resolve_left hpe
      simp only [Bool.not_eq_true] at hpe
      simp [resolveEntry, hid, hsel, hmt, hft, horg, hflag, computeDir, hlook, hpe, hmk, hfin]
  · intro hflag hlook hdir hfin
    by_cases hpe : pathExists (savePath ++ ("/") ++ name ++ ("/") ++ dir) = true
    · simp [resolveEntry, hid, hsel, hmt, hft, horg, hflag, computeDir, hlook, hpe, hfin]
    · have hmk : mkdirOk (savePath ++ ("/") ++ name ++ ("/") ++ dir) = true :=
        hdir.resolve_left hpe
      simp only [Bool.not_eq_true] at hpe
      simp [resolveEntry, hid, hsel, hmt, hft, horg, hflag, computeDir, hlook, hpe, hmk, hfin]
  · intro hlook hfin
    cases hflag : settings.use_server_name_directories <;>
      simp_all [resolveEntry, hid, hsel, hmt, hft, horg, computeDir, hlook, hfin]

/-- Witness for c1 at concrete settings, with both flags set, an epub
entry, and the organization table mapping epub to Books: the path is the
shared save root, then Books, then the stripped id with extension. -/
theorem c1_witness :
    resolveEntry settingsW ("save") (("save") ++ ("/") ++ ("lib1"))
      (fun _ => false) (fun _ => true) entryEpub =
      ([], some ⟨epubLink, FileExtension.Epub, entryEpub, ("save/Books/abc.epub")⟩) := by
  have h := (c1_destination_path settingsW ("save") ("lib1") (fun _ => false) (fun _ => true)
    entryEpub ("abc") epubLink ("application/epub+zip") FileType.Epub ("Books")
    (by decide) (by decide) (by decide) (by decide) (by decide)).1
    rfl (by decide) (Or.inr (by decide)) (by decide)
  exact h.trans (by decide)

/-- C3: pagination.  For a two-page catalog — page 1 carrying a link
classified Next whose href starts with a slash, page 2 carrying none —
the fetch issues exactly two requests with the same credentials, the
second to the slash href attached to the scheme and host of the instance
url, and returns the feed whose entries are page 1 entries followed by
page 2 entries and whose links are those of page 2.  Hrefs not starting
with a slash are instead used verbatim as fully qualified URLs. -/
theorem c3_pagination (env : Env) (fuel : Nat) (inst : Instance)
    (p1 p2 : Feed) (nl : Link) (href : String) (pu : ParsedUrl)
    (hfuel : 2 ≤ fuel)
    (hfetch1 : env.fetch inst.url = .ok p1)
    (hnext : p1.links.find? (fun l => decide (l.rel = some LinkType.Next)) = some nl)
    (hhref : nl.href = some href)
    (hslash : strStartsWith href ("/") = true)
    (hparse : parseUrl inst.url = some pu)
    (hhost : pu.host ≠ (""))
    (hfetch2 : env.fetch (pu.scheme ++ ("://") ++ pu.host ++ href) = .ok p2)
    (hlast : p2.links.find? (fun l => decide (l.rel = some LinkType.Next)) = none) :
    fetchCatalog env fuel inst =
      ([Event.fetchReq inst.url (inst.username.getD ("admin")) inst.password,
        Event.fetchReq (pu.scheme ++ ("://") ++ pu.host ++ href)
          (inst.username.getD ("admin")) inst.password],
       .ok ⟨p1.entries ++ p2.entries, p2.links⟩) ∧
    (∀ fq : String, strStartsWith fq ("/") = false → (parseUrl fq).isSome = true →
      resolveNextUrl inst.url fq = .ok fq) := by
  constructor
  · obtain ⟨k, rfl⟩ : ∃ k, fuel = k + 1 + 1 := ⟨fuel - 2, by omega⟩
    have hres : resolveNextUrl inst.url href =
        .ok (pu.scheme ++ ("://") ++ pu.host ++ href) := by
      simp [resolveNextUrl, hslash, hparse, hhost]
    simp [fetchCatalog, hfetch1, crawlLoop, hnext, hhref, hres, hfetch2, hlast]
  · intro fq h1 h2
    obtain ⟨u, hu⟩ := Option.isSome_iff_exists.mp h2
    simp [resolveNextUrl, h1, hu]

/-- Witness for c3: the concrete two-page catalog is crawled with exactly
two requests and yields the concatenated entries and the page 2 links. -/
theorem c3_witness :
    fetchCatalog envPag 2 ⟨("http://h.example/opds"), none, none⟩ =
      ([Event.fetchReq ("http://h.example/opds") ("admin") none,
        Event.fetchReq ("http://h.example/catalog?page=2") ("admin") none],
       .ok ⟨page1.entries ++ page2.entries, page2.links⟩) := by
  have h := (c3_pagination envPag 2 ⟨("http://h.example/opds"), none, none⟩
    page1 page2 ⟨some .Next, some ("/catalog?page=2"), none⟩ ("/catalog?page=2")
    ⟨("http"), ("h.example"), ("/opds")⟩
    (by decide) (by decide) (by decide) (by decide) (by decide) (by decide)
    (by decide) (by decide) (by decide)).1
  exact h.trans (by decide)

/-- C5: a download failure for one resolved entry (main.rs lines 423-436)
emits the error notification, removes the partially written file, and
continues with the remaining resolved entries: the loop result and the
remaining trace are exactly those of processing the rest. -/
theorem c5_download_failure_nonfatal (env : Env) (instanceUrl libraryPath username : String)
    (password : Option String) (r : EntryResult) (rest : List EntryResult) (p : Nat)
    (u : ParsedUrl) (href e : String)
    (hsig : env.sigterm p = false)
    (hex : env.pathExists r.save_path = false)
    (hcr : env.createOk r.save_path = true)
    (hurl : parseUrl instanceUrl = some u)
    (hhref : r.link.href = some href)
    (hdl : env.download (u.scheme ++ ("://") ++ u.host ++
      (if strStartsWith href ("/") then href else ("/") ++ href)) = .error e) :
    downloadLoop env instanceUrl libraryPath username password (r :: rest) p =
      ⟨(p + 1, .createFile r.save_path) ::
         (p + 1, .downloadReq (u.scheme ++ ("://") ++ u.host ++
           (if strStartsWith href ("/") then href else ("/") ++ href)) username password) ::
         (p + 1, .notify (("Error downloading ") ++ r.entry.title ++ (": ") ++ e)) ::
         (p + 1, .removeFile r.save_path) ::
         (downloadLoop env instanceUrl libraryPath username password rest (p + 1)).trace,
       (downloadLoop env instanceUrl libraryPath username password rest (p + 1)).polls,
       (downloadLoop env instanceUrl libraryPath username password rest (p + 1)).result⟩ := by
  simp [downloadLoop, hsig, hex, hcr, hurl, hhref, hdl]

/-- Witness for c5: a failing download of a single-entry batch removes the
file and the loop still ends ok. -/
theorem c5_witness :
    downloadLoop envDlErr ("http://h.example/opds") ("lib") ("admin") none [resultW] 0 =
      ⟨[(1, .createFile ("save/Books/abc.epub")),
        (1, .downloadReq ("http://h.example/get/1.epub") ("admin") none),
        (1, .notify ("Error downloading Dune: connection reset")),
        (1, .removeFile ("save/Books/abc.epub"))], 1, .ok ()⟩ := by
  have h := c5_download_failure_nonfatal envDlErr ("http://h.example/opds") ("lib")
    ("admin") none resultW [] 0 ⟨("http"), ("h.example"), ("/opds")⟩
    ("/get/1.epub") ("connection reset")
    (by decide) (by decide) (by decide) (by decide) (by decide) (by decide)
  exact h.trans (by decide)

/-- C7: a catalog fetch failure for one server is not caught per-server:
under a clear termination flag, the run on that server and any remaining
ones stops with the error after the single failed request — no entry of
the failing server is processed and no later server is fetched. -/
theorem c7_fetch_failure_aborts (env : Env) (fuel : Nat) (settings : Settings)
    (savePath libraryPath name : String) (inst : Instance)
    (rest : List (String × Instance)) (p : Nat) (e : String)
    (hsig : env.sigterm p = false)
    (hfetch : env.fetch inst.url = .error e) :
    runServers env fuel settings savePath libraryPath ((name, inst) :: rest) p =
      ⟨[(p + 1, Event.fetchReq inst.url (inst.username.getD ("admin")) inst.password)],
       p + 1, .error e⟩ := by
  simp [runServers, hsig, processServer, fetchCatalog, hfetch]

/-- Witness for c7: with a failing fetch oracle and two configured
servers, the whole run ends in that error after one request. -/
theorem c7_witness :
    runServers envFetchErr 2 settingsW ("save") ("lib")
      [(("lib1"), ⟨("http://h.example/opds"), none, none⟩),
       (("lib2"), ⟨("http://other.example/opds"), none, none⟩)] 0 =
      ⟨[(1, Event.fetchReq ("http://h.example/opds") ("admin") none)], 1,
       .error ("connection refused")⟩ := by
  have h := c7_fetch_failure_aborts envFetchErr 2 settingsW ("save") ("lib")
    ("lib1") ⟨("http://h.example/opds"), none, none⟩
    [(("lib2"), ⟨("http://other.example/opds"), none, none⟩)] 0 ("connection refused")
    (by decide) (by decide)
  exact h.trans (by decide)

/-- C10: a resolved entry whose selected link has no href (main.rs lines
416-421).  The download loop stops with the propagated error right after
creating the destination file: the remaining resolved entries are not
processed and no removal of the created file is ever emitted; and any
server-body error under a clear flag ends the whole run with that error,
so no later server is processed either. -/
theorem c10_missing_href_fatal (env : Env) (fuel : Nat) (settings : Settings)
    (savePath libraryPath instanceUrl username : String) (password : Option String)
    (r : EntryResult) (rest : List EntryResult) (p : Nat) (u : ParsedUrl)
    (hsig : env.sigterm p = false)
    (hex : env.pathExists r.save_path = false)
    (hcr : env.createOk r.save_path = true)
    (hurl : parseUrl instanceUrl = some u)
    (hhref : r.link.href = none) :
    downloadLoop env instanceUrl libraryPath username password (r :: rest) p =
      ⟨[(p + 1, .createFile r.save_path)], p + 1,
       .error (("no href found for link in ") ++ r.entry.title)⟩ ∧
    (∀ te ∈ (downloadLoop env instanceUrl libraryPath username password (r :: rest) p).trace,
       te.2 ≠ Event.removeFile r.save_path) ∧
    (∀ (name : String) (inst : Instance) (more : List (String × Instance)) (q : Nat)
       (e : String), env.sigterm q = false →
       (processServer env fuel settings savePath libraryPath name inst (q + 1)).result =
         .error e →
       runServers env fuel settings savePath libraryPath ((name, inst) :: more) q =
         ⟨(processServer env fuel settings savePath libraryPath name inst (q + 1)).trace,
          (processServer env fuel settings savePath libraryPath name inst (q + 1)).polls,
          .error e⟩) := by
  have heq : downloadLoop env instanceUrl libraryPath username password (r :: rest) p =
      ⟨[(p + 1, .createFile r.save_path)], p + 1,
       .error (("no href found for link in ") ++ r.entry.title)⟩ := by
    simp [downloadLoop, hsig, hex, hcr, hurl, hhref]
  refine ⟨heq, ?_, ?_⟩
  · intro te hte
    rw [heq] at hte
    simp only [List.mem_singleton] at hte
    subst hte
    simp
  · intro name inst more q e hq hres
    simp [runServers, hq, hres]

/-- Witness for c10: a single resolved entry with no href ends the loop in
the error, leaving only the file-creation event behind. -/
theorem c10_witness :
    downloadLoop envPag ("http://h.example/opds") ("lib") ("admin") none [resultNoHref] 0 =
      ⟨[(1, .createFile ("save/Books/abc.epub"))], 1,
       .error ("no href found for link in Dune")⟩ := by
  have h := (c10_missing_href_fatal envPag 2 settingsW ("save") ("lib")
    ("http://h.example/opds") ("admin") none resultNoHref [] 0
    ⟨("http"), ("h.example"), ("/opds")⟩
    (by decide) (by decide) (by decide) (by decide) (by decide)).1
  exact h.trans (by decide)

/-- Every network event in a download loop trace is tagged with a positive
poll count whose preceding flag read was false. -/
theorem downloadLoop_net (env : Env) (instanceUrl libraryPath username : String)
    (password : Option String) :
    ∀ (results : List EntryResult) (p : Nat),
      ∀ te ∈ (downloadLoop env instanceUrl libraryPath username password results p).trace,
        te.2.isNetwork = true → 1 ≤ te.1 ∧ env.sigterm (te.1 - 1) = false := by
  intro results
  induction results with
  | nil =>
    intro p te hte _
    simp [downloadLoop] at hte
  | cons r rest ih =>
    intro p te hte hnet
    by_cases hs : env.sigterm p = true
    · simp [downloadLoop, hs] at hte
    · simp only [Bool.not_eq_true] at hs
      cases h1 : env.pathExists r.save_path with
      | true =>
        simp only [downloadLoop, hs, h1, Bool.false_eq_true, if_false, if_true] at hte
        exact ih (p + 1) te hte hnet
      | false =>
        cases h2 : env.createOk r.save_path with
        | false => simp [downloadLoop, hs, h1, h2] at hte
        | true =>
          cases h3 : parseUrl instanceUrl with
          | none =>
            simp [downloadLoop, hs, h1, h2, h3] at hte
            subst hte
            simp [Event.isNetwork] at hnet
          | some u =>
            cases h4 : r.link.href with
            | none =>
              simp [downloadLoop, hs, h1, h2, h3, h4] at hte
              subst hte
              simp [Event.isNetwork] at hnet
            | some href =>
              cases h5 : env.download (u.scheme ++ ("://") ++ u.host ++
                  (if strStartsWith href ("/") then href else ("/") ++ href)) with
              | error e =>
                simp only [downloadLoop, hs, h1, h2, h3, h4, h5, Bool.false_eq_true,
                  if_false, if_true, List.mem_cons] at hte
                rcases hte with rfl | rfl | rfl | rfl | hte
                · simp [Event.isNetwork] at hnet
                · exact ⟨by omega, by simpa using hs⟩
                · simp [Event.isNetwork] at hnet
                · simp [Event.isNetwork] at hnet
                · exact ih (p + 1) te hte hnet
              | ok v =>
                cases h6 : strStartsWith r.save_path libraryPath with
                | true =>
                  simp only [downloadLoop, hs, h1, h2, h3, h4, h5, h6, Bool.false_eq_true,
                    if_false, if_true, List.cons_append, List.singleton_append,
                    List.mem_cons] at hte
                  rcases hte with rfl | rfl | rfl | hte
                  · simp [Event.isNetwork] at hnet
                  · exact ⟨by omega, by simpa using hs⟩
                  · simp [Event.isNetwork] at hnet
                  · exact ih (p + 1) te hte hnet
                | false =>
                  simp only [downloadLoop, hs, h1, h2, h3, h4, h5, h6, Bool.false_eq_true,
                    if_false, if_true, List.cons_append, List.nil_append,
                    List.mem_cons] at hte
                  rcases hte with rfl | rfl | hte
                  · simp [Event.isNetwork] at hnet
                  · exact ⟨by omega, by simpa using hs⟩
                  · exact ih (p + 1) te hte hnet

/-- Every network event in the processing of one server whose opening poll
read false is tagged with a positive poll count whose preceding flag read
was false. -/
theorem processServer_net (env : Env) (fuel : Nat) (settings : Settings)
    (savePath libraryPath name : String) (inst : Instance) (q : Nat)
    (hq : 1 ≤ q) (hsig : env.sigterm (q - 1) = false) :
    ∀ te ∈ (processServer env fuel settings savePath libraryPath name inst q).trace,
      te.2.isNetwork = true → 1 ≤ te.1 ∧ env.sigterm (te.1 - 1) = false := by
  intro te hte hnet
  simp only [processServer] at hte
  split at hte
  · simp only [List.mem_map] at hte
    obtain ⟨ev, _, rfl⟩ := hte
    exact ⟨hq, hsig⟩
  · split at hte
    · simp only [List.mem_append, List.mem_map] at hte
      rcases hte with ((⟨ev, _, rfl⟩ | ⟨m, _, rfl⟩) | ⟨m2, _, rfl⟩) | hdl
      · exact ⟨hq, hsig⟩
      · exact ⟨hq, hsig⟩
      · exact ⟨hq, hsig⟩
      · exact downloadLoop_net env _ _ _ _ _ q te hdl hnet
    · simp only [List.mem_append, List.mem_map] at hte
      rcases hte with (((⟨ev, _, rfl⟩ | ⟨m, _, rfl⟩) | ⟨m2, _, rfl⟩) | hdl) | hfin
      · exact ⟨hq, hsig⟩
      · exact ⟨hq, hsig⟩
      · exact ⟨hq, hsig⟩
      · exact downloadLoop_net env _ _ _ _ _ q te hdl hnet
      · split at hfin
        · simp at hfin
        · simp only [List.mem_singleton] at hfin
          subst hfin
          simp [Event.isNetwork] at hnet

/-- Every network event of a run is tagged with a positive poll count
whose preceding flag read was false. -/
theorem runServers_net (env : Env) (fuel : Nat) (settings : Settings)
    (savePath libraryPath : String) :
    ∀ (servers : List (String × Instance)) (p : Nat),
      ∀ te ∈ (runServers env fuel settings savePath libraryPath servers p).trace,
        te.2.isNetwork = true → 1 ≤ te.1 ∧ env.sigterm (te.1 - 1) = false := by
  intro servers
  induction servers with
  | nil =>
    intro p te hte _
    simp [runServers] at hte
  | cons si rest ih =>
    obtain ⟨name, inst⟩ := si
    intro p te hte hnet
    by_cases hs : env.sigterm p = true
    · simp [runServers, hs] at hte
    · simp only [Bool.not_eq_true] at hs
      simp only [runServers, hs, Bool.false_eq_true, if_false] at hte
      split at hte
      · exact processServer_net env fuel settings savePath libraryPath name inst (p + 1)
          (by omega) (by simpa using hs) te hte hnet
      · simp only [List.mem_append] at hte
        rcases hte with hps | hrest
        · exact processServer_net env fuel settings savePath libraryPath name inst (p + 1)
            (by omega) (by simpa using hs) te hps hnet
        · exact ih _ te hrest hnet

/-- C6: cooperative cancellation.  The flag is polled at the top of the
per-server loop and at the top of the per-entry download loop; with a
monotone flag that is set by poll c, every network request of the run
happened at a poll count of at most c, and a flag set from the start
yields an empty trace — no network call at all — with the run ending ok. -/
theorem c6_cancellation (env : Env) (fuel : Nat) (settings : Settings)
    (savePath libraryPath : String) (servers : List (String × Instance)) (c : Nat)
    (hmono : ∀ i j, i ≤ j → env.sigterm i = true → env.sigterm j = true)
    (hc : env.sigterm c = true) :
    (∀ te ∈ (runServers env fuel settings savePath libraryPath servers 0).trace,
       te.2.isNetwork = true → te.1 ≤ c) ∧
    (env.sigterm 0 = true →
      (runServers env fuel settings savePath libraryPath servers 0).trace = [] ∧
      (runServers env fuel settings savePath libraryPath servers 0).result = .ok ()) ∧
    (∀ (si : String × Instance) (rest : List (String × Instance)) (p : Nat),
      env.sigterm p = true →
      runServers env fuel settings savePath libraryPath (si :: rest) p =
        ⟨[], p + 1, .ok ()⟩) ∧
    (∀ (iurl lib user : String) (pw : Option String) (r : EntryResult)
       (rest : List EntryResult) (p : Nat), env.sigterm p = true →
      downloadLoop env iurl lib user pw (r :: rest) p = ⟨[], p + 1, .ok ()⟩) := by
  refine ⟨?_, ?_, ?_, ?_⟩
  · intro te hte hnet
    obtain ⟨h1, h2⟩ := runServers_net env fuel settings savePath libraryPath servers 0
      te hte hnet
    by_contra hlt
    push_neg at hlt
    have hset : env.sigterm (te.1 - 1) = true := hmono c (te.1 - 1) (by omega) hc
    rw [h2] at hset
    exact Bool.false_ne_true hset
  · intro h0
    cases servers with
    | nil => exact ⟨rfl, rfl⟩
    | cons s rest =>
      obtain ⟨n, i⟩ := s
      constructor <;> simp [runServers, h0]
  · intro si rest p hp
    obtain ⟨n, i⟩ := si
    simp [runServers, hp]
  · intro iurl lib user pw r rest p hp
    simp [downloadLoop, hp]

/-- Witness for c6: with the flag already set, a run over the configured
servers issues nothing and ends ok. -/
theorem c6_witness :
    (runServers envCancel 2 settingsW ("save") ("lib") settingsW.servers 0).trace = [] ∧
    (runServers envCancel 2 settingsW ("save") ("lib") settingsW.servers 0).result = .ok () :=
  (c6_cancellation envCancel 2 settingsW ("save") ("lib") settingsW.servers 0
    (fun _ _ _ h => h) rfl).2.1 rfl

end PlatoOpds
